import Mathlib

set_option maxHeartbeats 1000000

/-!
Shallow embedding of the WebRTC echo server (server.py): the ICE-server
resolution pipeline with its cache (get_ice_servers), the converter to
aiortc RTCIceServer objects (convert_to_rtc_ice_servers), the offer
handler with its statistics counters, and the connection-state-change
observer. Machine timestamps are modelled as Nat seconds; the network
call to the Twilio credential service is modelled as an explicit
parameter of type Except Unit (List IceDict), and the number of
credential-service requests performed by a call is returned alongside
the result.
-/

namespace WebrtcEcho

/-- Python truthiness of an optional string (environment value or dict entry):
true exactly when the value is present and is a non-empty string. -/
def truthy : Option String → Bool
  | some s => !s.isEmpty
  | none => false

/-- The urls field of an ICE server dict: in the source it is either a single
URI string or a list of URI strings. -/
inductive Urls where
  | str : String → Urls
  | list : List String → Urls
deriving DecidableEq

/-- An ICE server dict as produced by get_ice_servers: keys urls, username,
credential (the latter two possibly absent, modelled as none). -/
structure IceDict where
  urls : Urls
  username : Option String
  credential : Option String
deriving DecidableEq

/-- An aiortc RTCIceServer as constructed by convert_to_rtc_ice_servers. -/
structure RTCIceServer where
  urls : Urls
  username : Option String
  credential : Option String
deriving DecidableEq

/-- Python substring containment, pat in s, for a non-empty pattern:
splitting on the pattern yields more than one piece exactly when it occurs. -/
def strContains (s pat : String) : Bool :=
  (s.splitOn pat).length > 1

/-- The stream-oriented-transport test applied to each TURN url in the
converter: the source keeps urls containing transport=tcp or :443. -/
def isTcpLikeUrl (url : String) : Bool :=
  strContains url "transport=tcp" || strContains url ":443"

/-- One iteration of the loop body of convert_to_rtc_ice_servers: a dict with
truthy username and credential takes the TURN branch (filter to TCP-like urls,
falling back to all urls when the filter leaves none; a single string url is
wrapped in a list); any other dict takes the STUN branch, its urls passed
through and its credentials dropped. -/
def convertOne (server : IceDict) : RTCIceServer :=
  if truthy server.username && truthy server.credential then
    let tcp_urls : List String :=
      match server.urls with
      | .list urls =>
          let t := urls.filter isTcpLikeUrl
          if t.isEmpty then urls else t
      | .str u => [u]
    ⟨.list tcp_urls, server.username, server.credential⟩
  else
    ⟨server.urls, none, none⟩

/-- convert_to_rtc_ice_servers from server.py: one output entry per input
dict, via convertOne. -/
def convert_to_rtc_ice_servers (data : List IceDict) : List RTCIceServer :=
  data.map convertOne

/-- Environment configuration read by get_ice_servers: TWILIO_ACCOUNT_SID,
TWILIO_AUTH_TOKEN, CUSTOM_TURN_SERVER, CUSTOM_TURN_USER, CUSTOM_TURN_PASS. -/
structure ResolverConfig where
  twilioSid : Option String
  twilioToken : Option String
  customTurn : Option String
  customUser : Option String
  customPass : Option String
deriving DecidableEq

/-- The module-level cache of get_ice_servers: the stored list (none at
process start) and the fetch timestamp. -/
structure ResolverState where
  cache : Option (List IceDict)
  timestamp : Nat
deriving DecidableEq

/-- Cache time-to-live, 3600 seconds. -/
def cacheTtl : Nat := 3600

/-- Cache state at process start: no list stored, timestamp 0. -/
def initialResolverState : ResolverState := ⟨none, 0⟩

/-- The cache guard of get_ice_servers: Python tests the truthiness of the
cached value (an empty list is falsy, like an absent one) and then the age
against the ttl. -/
def cacheFresh (st : ResolverState) (now : Nat) : Bool :=
  match st.cache with
  | some (_ :: _) => decide (now - st.timestamp < cacheTtl)
  | _ => false

/-- The two public STUN entries the fallback path always starts from. -/
def defaultStunServers : List IceDict :=
  [⟨.str "stun:stun.l.google.com:19302", none, none⟩,
   ⟨.str "stun:stun1.l.google.com:19302", none, none⟩]

/-- The env-based fallback provider: the default STUN pair, plus one TURN
entry synthesized from CUSTOM_TURN_SERVER (port 3478) with username and
password defaulting to webrtc and webrtc123, when the host is truthy. -/
def fallbackServers (cfg : ResolverConfig) : List IceDict :=
  if truthy cfg.customTurn then
    defaultStunServers ++
      [⟨.str ("turn:" ++ cfg.customTurn.getD "" ++ ":3478"),
        some (cfg.customUser.getD "webrtc"),
        some (cfg.customPass.getD "webrtc123")⟩]
  else
    defaultStunServers

/-- Result of one get_ice_servers call: the returned list, the cache state
after the call, and how many credential-service requests were performed. -/
structure ResolveResult where
  servers : List IceDict
  state : ResolverState
  networkCalls : Nat
deriving DecidableEq

/-- get_ice_servers from server.py. The twilio parameter stands for the
outcome of the credential-service interaction (token request plus parsing of
its server list): ok with the parsed list, or error for any exception
(network, auth, malformed response), which the source catches and falls
through from. A request is made exactly when both Twilio credentials are
truthy and the cache guard failed. -/
def get_ice_servers (cfg : ResolverConfig) (st : ResolverState)
    (twilio : Except Unit (List IceDict)) (now : Nat) : ResolveResult :=
  if cacheFresh st now then
    ⟨st.cache.getD [], st, 0⟩
  else if truthy cfg.twilioSid && truthy cfg.twilioToken then
    match twilio with
    | .ok servers => ⟨servers, ⟨some servers, now⟩, 1⟩
    | .error _ => ⟨fallbackServers cfg, ⟨some (fallbackServers cfg), now⟩, 1⟩
  else
    ⟨fallbackServers cfg, ⟨some (fallbackServers cfg), now⟩, 0⟩

/-- The global server_stats dict together with the global pcs set: registry of
live peer connections (modelled by numeric ids), the total and failed
connection counters, and the recent connection-time window. -/
structure ServerStats where
  pcs : List Nat
  total_connections : Nat
  failed_connections : Nat
  connection_times : List Nat
deriving DecidableEq

/-- server_stats at process start: empty registry, zero counters, no recorded
connection times. -/
def initialStats : ServerStats := ⟨[], 0, 0, []⟩

/-- The except-block of the offer handler bumps the failed counter. -/
def recordFailure (st : ServerStats) : ServerStats :=
  { st with failed_connections := st.failed_connections + 1 }

/-- The RTCConfiguration passed to RTCPeerConnection in the offer handler. -/
structure RTCConfig where
  iceServers : List RTCIceServer
  iceTransportPolicy : String
deriving DecidableEq

/-- Outcome of the media-engine steps that follow peer-connection creation
(setRemoteDescription, createAnswer, setLocalDescription): success with the
generated answer sdp, or an exception with its message. -/
inductive EngineOutcome where
  | ok : String → EngineOutcome
  | fail : String → EngineOutcome
deriving DecidableEq

/-- The HTTP response of the offer handler, plus the RTCConfiguration of the
peer connection when one was created on this call (none when the call failed
before creation). -/
structure OfferResponse where
  status : Nat
  sdp : Option String
  sdpType : Option String
  error : Option String
  pcConfig : Option RTCConfig
deriving DecidableEq

/-- Full effect of one offer call: the response, the server statistics after
the call, and the ICE cache state after the call. -/
structure OfferResult where
  response : OfferResponse
  stats : ServerStats
  rstate : ResolverState
deriving DecidableEq

/-- The offer handler from server.py. The body parameter models
request.json(): none when the body is not JSON, otherwise the optional sdp
and type fields. Accessing a missing sdp (then a missing type) raises before
any session exists; the modelled exception text stands for the Python
str of the KeyError. Past those, the handler resolves ICE servers, converts
them, creates the peer connection with iceTransportPolicy relay, inserts it
into the registry, bumps total_connections, and then runs the engine steps:
on success it answers 200 with the local description, on failure the
except-block bumps failed_connections and answers 500 with the message —
without removing the created connection from the registry. -/
def offer (body : Option (Option String × Option String)) (pcId : Nat)
    (cfg : ResolverConfig) (rst : ResolverState)
    (twilio : Except Unit (List IceDict)) (now : Nat)
    (engine : EngineOutcome) (st : ServerStats) : OfferResult :=
  match body with
  | none =>
      ⟨⟨500, none, none, some "request body is not valid JSON", none⟩,
        recordFailure st, rst⟩
  | some (none, _) =>
      ⟨⟨500, none, none, some "KeyError: sdp", none⟩, recordFailure st, rst⟩
  | some (some _, none) =>
      ⟨⟨500, none, none, some "KeyError: type", none⟩, recordFailure st, rst⟩
  | some (some _, some _) =>
      let r := get_ice_servers cfg rst twilio now
      let config : RTCConfig := ⟨convert_to_rtc_ice_servers r.servers, "relay"⟩
      let st1 : ServerStats :=
        { st with pcs := pcId :: st.pcs,
                  total_connections := st.total_connections + 1 }
      match engine with
      | .ok answerSdp =>
          ⟨⟨200, some answerSdp, some "answer", none, some config⟩, st1, r.state⟩
      | .fail msg =>
          ⟨⟨500, none, none, some msg, some config⟩, recordFailure st1, r.state⟩

/-- The connectionstatechange observer registered on each peer connection:
on failed or closed it discards the connection from the registry; on
connected it appends the elapsed time to connection_times, keeping only the
last 100 entries; other states leave the statistics untouched. -/
def on_connectionstatechange (connectionState : String) (pcId : Nat)
    (latencyMs : Nat) (st : ServerStats) : ServerStats :=
  if connectionState ∈ (["failed", "closed"] : List String) then
    { st with pcs := st.pcs.erase pcId }
  else if connectionState = "connected" then
    { st with connection_times :=
        if (st.connection_times ++ [latencyMs]).length > 100 then
          ((st.connection_times ++ [latencyMs]).drop
            ((st.connection_times ++ [latencyMs]).length - 100))
        else
          st.connection_times ++ [latencyMs] }
  else
    st

/-- Inputs of one offer call, for reasoning about sequences of calls: the
request body, the fresh id of the peer connection the call would create, the
environment configuration, the credential-service outcome, the clock, and
the media-engine outcome. -/
structure OfferInput where
  body : Option (Option String × Option String)
  pcId : Nat
  cfg : ResolverConfig
  twilio : Except Unit (List IceDict)
  now : Nat
  engine : EngineOutcome

/-- One offer call as a step on the pair of server statistics and ICE cache. -/
def stepOffer (s : ServerStats × ResolverState) (i : OfferInput) :
    ServerStats × ResolverState :=
  let r := offer i.body i.pcId i.cfg s.2 i.twilio i.now i.engine s.1
  (r.stats, r.rstate)

/-- Run a sequence of offer calls from process start. -/
def runOffers (tr : List OfferInput) : ServerStats × ResolverState :=
  tr.foldl stepOffer (initialStats, initialResolverState)

/-- An input fails early when the handler raises before the peer connection
is created: non-JSON body, missing sdp, or missing type. -/
def earlyFail (i : OfferInput) : Bool :=
  match i.body with
  | none => true
  | some (none, _) => true
  | some (some _, none) => true
  | some (some _, some _) => false

/-- Number of calls in a sequence that fail before session creation. -/
def countEarlyFails (tr : List OfferInput) : Nat :=
  (tr.filter earlyFail).length

/-- A urls value that is not the empty list: a single string, or a list with
at least one element. -/
def urlsNonempty : Urls → Bool
  | .str _ => true
  | .list us => !us.isEmpty

/-- An input dict with truthy username and credential (the converter's TURN
branch guard). -/
def dictCredentialed (s : IceDict) : Bool :=
  truthy s.username && truthy s.credential

/-- An emitted RTCIceServer carrying truthy username and credential. -/
def rtcCredentialed (r : RTCIceServer) : Bool :=
  truthy r.username && truthy r.credential

/-- An emitted RTCIceServer whose urls set is the empty list. -/
def rtcUrlsEmpty (r : RTCIceServer) : Bool :=
  !urlsNonempty r.urls

/-- A url of the STUN scheme: the character sequence of the url starts with
the five characters of the stun scheme marker. -/
def isStunUrlStr (u : String) : Bool :=
  List.isPrefixOf "stun:".data u.data

/-- All urls of the entry are of the STUN scheme. -/
def urlsAllStun : Urls → Bool
  | .str u => isStunUrlStr u
  | .list us => us.all isStunUrlStr

/-- A configuration with Twilio credentials set and nothing else. -/
def twilioOnlyCfg : ResolverConfig := ⟨some "sid", some "tok", none, none, none⟩

/-- A configuration with no environment variable set at all. -/
def emptyCfg : ResolverConfig := ⟨none, none, none, none, none⟩

/-- A configuration with only an operator relay host set. -/
def customTurnCfg : ResolverConfig := ⟨none, none, some "203.0.113.9", none, none⟩

/-- A single credentialed descriptor whose urls list is empty. -/
def credEmptyUrlsInput : List IceDict :=
  [⟨.list [], some "user", some "pass"⟩]

/-- A credentialed TURN descriptor with a TCP url, plus a plain STUN entry. -/
def tcpTurnInput : List IceDict :=
  [⟨.list ["turn:relay.example.org:443?transport=tcp"], some "u", some "p"⟩,
   ⟨.str "stun:stun.l.google.com:19302", none, none⟩]

/-- A one-call sequence whose call fails before session creation: the body is
JSON but has no sdp field. -/
def earlyFailTrace : List OfferInput :=
  [⟨some (none, some "offer"), 0, emptyCfg, Except.error (), 0, .ok "a"⟩]

/-! Helper lemmas. -/

/-- The fallback provider always returns a non-empty list. -/
lemma fallbackServers_ne_nil (cfg : ResolverConfig) : fallbackServers cfg ≠ [] := by
  cases h : truthy cfg.customTurn <;>
    simp [fallbackServers, h, defaultStunServers]

/-- A fresh cache holds a non-empty list. -/
lemma cacheFresh_cache (st : ResolverState) (now : Nat)
    (h : cacheFresh st now = true) : ∃ a l, st.cache = some (a :: l) := by
  rcases hcs : st.cache with _ | (_ | ⟨a, l⟩)
  · have hf : cacheFresh st now = false := by simp [cacheFresh, hcs]
    rw [hf] at h
    exact absurd h (by simp)
  · have hf : cacheFresh st now = false := by simp [cacheFresh, hcs]
    rw [hf] at h
    exact absurd h (by simp)
  · exact ⟨a, l, by simp [hcs]⟩

/-! Claims about the ICE resolver. -/

/-- C5: get_ice_servers never fails. For every configuration and cache state,
whenever the credential-service interaction fails (network, auth, malformed
response) or the Twilio credentials are not configured, the call still
returns a non-empty list, and when the cache guard did not hit, that list is
exactly the env-based fallback providers output. -/
theorem get_ice_servers_never_fails (cfg : ResolverConfig) (st : ResolverState)
    (tw : Except Unit (List IceDict)) (now : Nat)
    (h : tw = Except.error () ∨
      (truthy cfg.twilioSid && truthy cfg.twilioToken) = false) :
    (get_ice_servers cfg st tw now).servers ≠ [] ∧
    (cacheFresh st now = false →
      (get_ice_servers cfg st tw now).servers = fallbackServers cfg) := by
  by_cases hc : cacheFresh st now = true
  · obtain ⟨a, l, hcs⟩ := cacheFresh_cache st now hc
    constructor
    · simp [get_ice_servers, hc, hcs]
    · intro hfalse
      rw [hc] at hfalse
      exact absurd hfalse (by simp)
  · have hc2 : cacheFresh st now = false := by
      cases hcb : cacheFresh st now
      · rfl
      · exact absurd hcb hc
    by_cases ht : (truthy cfg.twilioSid && truthy cfg.twilioToken) = true
    · have htw : tw = Except.error () := by
        rcases h with h | h
        · exact h
        · rw [ht] at h
          exact absurd h (by simp)
      subst htw
      constructor
      · simp [get_ice_servers, hc2, ht, fallbackServers_ne_nil]
      · intro _
        simp [get_ice_servers, hc2, ht]
    · have ht2 : (truthy cfg.twilioSid && truthy cfg.twilioToken) = false := by
        cases htb : (truthy cfg.twilioSid && truthy cfg.twilioToken)
        · rfl
        · exact absurd htb ht
      constructor
      · simp [get_ice_servers, hc2, ht2, fallbackServers_ne_nil]
      · intro _
        simp [get_ice_servers, hc2, ht2]

/-- Witness for C5 at a concrete input: Twilio configured but erroring, empty
cache. -/
theorem get_ice_servers_never_fails_witness :
    (get_ice_servers twilioOnlyCfg initialResolverState (Except.error ()) 0).servers ≠ [] ∧
    (cacheFresh initialResolverState 0 = false →
      (get_ice_servers twilioOnlyCfg initialResolverState (Except.error ()) 0).servers =
        fallbackServers twilioOnlyCfg) :=
  get_ice_servers_never_fails twilioOnlyCfg initialResolverState (Except.error ()) 0
    (Or.inl rfl)

/-- C6 counterexample: the cache holds a previously stored (empty) list
fetched 5 seconds before the call, well within the one-hour TTL, Twilio is
configured — yet the call performs a credential-service request and returns a
list different from the cached one, refuting the zero-network-call claim for
this cache content. -/
theorem stale_empty_cache_counterexample :
    (10 : Nat) - 5 < cacheTtl ∧
    (get_ice_servers twilioOnlyCfg ⟨some [], 5⟩ (Except.error ()) 10).networkCalls ≠ 0 ∧
    (get_ice_servers twilioOnlyCfg ⟨some [], 5⟩ (Except.error ()) 10).servers ≠ [] := by
  refine ⟨by decide, ?_, ?_⟩ <;> decide

/-- C6 amended: if the cache holds a non-empty previously resolved list and
the elapsed time since the fetch is below the TTL, get_ice_servers returns
that cached list unchanged, leaves the cache state untouched, and performs
zero credential-service requests. -/
theorem fresh_nonempty_cache_zero_network (cfg : ResolverConfig) (a : IceDict)
    (l : List IceDict) (ts now : Nat) (tw : Except Unit (List IceDict))
    (h : now - ts < cacheTtl) :
    get_ice_servers cfg ⟨some (a :: l), ts⟩ tw now =
      ⟨a :: l, ⟨some (a :: l), ts⟩, 0⟩ := by
  have hc : cacheFresh ⟨some (a :: l), ts⟩ now = true := by
    simp [cacheFresh, h]
  simp [get_ice_servers, hc]

/-- Witness for C6 amended at a concrete input. -/
theorem fresh_nonempty_cache_zero_network_witness :
    (0 : Nat) - 0 < cacheTtl ∧
    get_ice_servers emptyCfg ⟨some [⟨.str "stun:x", none, none⟩], 0⟩
        (Except.error ()) 0 =
      ⟨[⟨.str "stun:x", none, none⟩], ⟨some [⟨.str "stun:x", none, none⟩], 0⟩, 0⟩ :=
  ⟨by decide,
    fresh_nonempty_cache_zero_network emptyCfg ⟨.str "stun:x", none, none⟩ [] 0 0
      (Except.error ()) (by decide)⟩

/-- C10: a cached empty list is treated as an unpopulated cache. With the
cache holding the empty list and the TTL not yet elapsed, the call behaves
exactly as if no list were cached (the full provider chain re-runs), and when
the Twilio credentials are configured it performs one credential-service
request despite being within the TTL window. -/
theorem empty_cached_list_unpopulated (cfg : ResolverConfig) (ts now : Nat)
    (tw : Except Unit (List IceDict)) (h : now - ts < cacheTtl) :
    get_ice_servers cfg ⟨some [], ts⟩ tw now =
      get_ice_servers cfg ⟨none, ts⟩ tw now ∧
    ((truthy cfg.twilioSid && truthy cfg.twilioToken) = true →
      (get_ice_servers cfg ⟨some [], ts⟩ tw now).networkCalls = 1) := by
  have h1 : cacheFresh ⟨some [], ts⟩ now = false := rfl
  have h2 : cacheFresh ⟨none, ts⟩ now = false := rfl
  constructor
  · simp [get_ice_servers, h1, h2]
  · intro hcfg
    cases tw <;> simp [get_ice_servers, h1, hcfg]

/-- Witness for C10 at a concrete input. -/
theorem empty_cached_list_unpopulated_witness :
    (10 : Nat) - 5 < cacheTtl ∧
    (get_ice_servers twilioOnlyCfg ⟨some [], 5⟩ (Except.error ()) 10 =
      get_ice_servers twilioOnlyCfg ⟨none, 5⟩ (Except.error ()) 10 ∧
    ((truthy twilioOnlyCfg.twilioSid && truthy twilioOnlyCfg.twilioToken) = true →
      (get_ice_servers twilioOnlyCfg ⟨some [], 5⟩ (Except.error ()) 10).networkCalls = 1)) :=
  ⟨by decide, empty_cached_list_unpopulated twilioOnlyCfg 5 10 (Except.error ()) (by decide)⟩

/-- C7: with no Twilio credentials configured and no cache hit, the resolver
returns the env-based fallback list; without an operator relay host that list
is exactly the default pair of public STUN entries, each credential-free and
of STUN scheme; with a truthy relay host it is the default STUN pair plus
exactly one TURN entry whose url, username and credential come from the
CUSTOM_TURN_SERVER, CUSTOM_TURN_USER and CUSTOM_TURN_PASS values (with their
documented defaults). -/
theorem fallback_provider_servers (cfg : ResolverConfig) (st : ResolverState)
    (tw : Except Unit (List IceDict)) (now : Nat)
    (htw : (truthy cfg.twilioSid && truthy cfg.twilioToken) = false)
    (hc : cacheFresh st now = false) :
    (get_ice_servers cfg st tw now).servers = fallbackServers cfg ∧
    (truthy cfg.customTurn = false →
      (get_ice_servers cfg st tw now).servers = defaultStunServers ∧
      ∀ s ∈ defaultStunServers,
        s.username = none ∧ s.credential = none ∧ urlsAllStun s.urls = true) ∧
    (∀ h : String, cfg.customTurn = some h → h ≠ "" →
      (get_ice_servers cfg st tw now).servers =
        defaultStunServers ++
          [⟨.str ("turn:" ++ h ++ ":3478"),
            some (cfg.customUser.getD "webrtc"),
            some (cfg.customPass.getD "webrtc123")⟩]) := by
  have hbase : (get_ice_servers cfg st tw now).servers = fallbackServers cfg := by
    simp [get_ice_servers, hc, htw]
  refine ⟨hbase, ?_, ?_⟩
  · intro hct
    constructor
    · rw [hbase]
      simp [fallbackServers, hct]
    · decide
  · intro h hsome hne
    rw [hbase]
    have hct : truthy (some h) = true := by
      cases hie : h.isEmpty
      · simp [truthy, hie]
      · exact absurd ((String.isEmpty_iff h).mp hie) hne
    simp [fallbackServers, hsome, hct]

/-- Witness for C7 at a concrete input: only an operator relay host set. -/
theorem fallback_provider_servers_witness :
    (get_ice_servers customTurnCfg initialResolverState (Except.error ()) 0).servers =
      fallbackServers customTurnCfg ∧
    (truthy customTurnCfg.customTurn = false →
      (get_ice_servers customTurnCfg initialResolverState (Except.error ()) 0).servers =
        defaultStunServers ∧
      ∀ s ∈ defaultStunServers,
        s.username = none ∧ s.credential = none ∧ urlsAllStun s.urls = true) ∧
    (∀ h : String, customTurnCfg.customTurn = some h → h ≠ "" →
      (get_ice_servers customTurnCfg initialResolverState (Except.error ()) 0).servers =
        defaultStunServers ++
          [⟨.str ("turn:" ++ h ++ ":3478"),
            some (customTurnCfg.customUser.getD "webrtc"),
            some (customTurnCfg.customPass.getD "webrtc123")⟩]) :=
  fallback_provider_servers customTurnCfg initialResolverState (Except.error ()) 0
    (by decide) (by decide)

/-! Claims about the converter to RTCIceServer objects. -/

/-- C3 counterexample: a descriptor with truthy credentials and an empty urls
list is not dropped by convert_to_rtc_ice_servers; it is emitted unchanged,
with empty urls and non-empty credentials, refuting the claimed invariant. -/
theorem convert_emits_credentialed_empty_urls :
    convert_to_rtc_ice_servers credEmptyUrlsInput =
      [⟨.list [], some "user", some "pass"⟩] ∧
    rtcCredentialed ⟨.list [], some "user", some "pass"⟩ = true ∧
    rtcUrlsEmpty ⟨.list [], some "user", some "pass"⟩ = true := by
  refine ⟨?_, by decide, by decide⟩
  decide

/-- C3 amended: the converter never drops an entry, and a credentialed
descriptor whose urls become empty after the stream-oriented filter falls
back to the full unfiltered url list; hence, whenever every credentialed
input descriptor has a non-empty urls value, no emitted server carries
credentials together with an empty urls set. -/
theorem convert_no_credentialed_empty_urls (data : List IceDict)
    (h : ∀ s ∈ data, dictCredentialed s = true → urlsNonempty s.urls = true) :
    (convert_to_rtc_ice_servers data).length = data.length ∧
    ∀ r ∈ convert_to_rtc_ice_servers data,
      rtcCredentialed r = true → rtcUrlsEmpty r = false := by
  constructor
  · simp [convert_to_rtc_ice_servers]
  · intro r hr hcred
    rcases List.mem_map.mp hr with ⟨s, hs, rfl⟩
    have hd := h s hs
    by_cases hcb : (truthy s.username && truthy s.credential) = true
    · have hne := hd hcb
      rcases hu : s.urls with u | us
      · simp [convertOne, hcb, hu, rtcUrlsEmpty, urlsNonempty]
      · rw [hu] at hne
        by_cases hf : (us.filter isTcpLikeUrl).isEmpty = true
        · simp only [convertOne, hcb, if_true, hu, hf, rtcUrlsEmpty, urlsNonempty]
          simp only [urlsNonempty] at hne
          simp [hne]
        · have hf2 : (us.filter isTcpLikeUrl).isEmpty = false := by
            cases hfb : (us.filter isTcpLikeUrl).isEmpty
            · rfl
            · exact absurd hfb hf
          simp [convertOne, hcb, hu, hf2, rtcUrlsEmpty, urlsNonempty]
    · have hconv : convertOne s = ⟨s.urls, none, none⟩ := by
        unfold convertOne
        rw [if_neg hcb]
      rw [hconv] at hcred
      simp [rtcCredentialed, truthy] at hcred

/-- Witness for C3 amended at a concrete input: a credentialed TURN entry
with a TCP url plus a default STUN entry. -/
theorem convert_no_credentialed_empty_urls_witness :
    (∀ s ∈ tcpTurnInput, dictCredentialed s = true → urlsNonempty s.urls = true) ∧
    ((convert_to_rtc_ice_servers tcpTurnInput).length = tcpTurnInput.length ∧
     ∀ r ∈ convert_to_rtc_ice_servers tcpTurnInput,
       rtcCredentialed r = true → rtcUrlsEmpty r = false) :=
  ⟨by decide, convert_no_credentialed_empty_urls tcpTurnInput (by decide)⟩

/-! Claims about the offer handler. -/

/-- C8: a request whose JSON body lacks the sdp field raises before any
session exists; the handler answers 500 with a non-empty error text, bumps
failed_connections by exactly one, and leaves total_connections and the
registry untouched. -/
theorem offer_missing_sdp_500 (pcId : Nat) (t : Option String)
    (cfg : ResolverConfig) (rst : ResolverState) (tw : Except Unit (List IceDict))
    (now : Nat) (engine : EngineOutcome) (st : ServerStats) :
    (offer (some (none, t)) pcId cfg rst tw now engine st).response.status = 500 ∧
    (offer (some (none, t)) pcId cfg rst tw now engine st).response.error.getD "" ≠ "" ∧
    (offer (some (none, t)) pcId cfg rst tw now engine st).stats.failed_connections =
      st.failed_connections + 1 ∧
    (offer (some (none, t)) pcId cfg rst tw now engine st).stats.total_connections =
      st.total_connections ∧
    (offer (some (none, t)) pcId cfg rst tw now engine st).stats.pcs = st.pcs := by
  refine ⟨rfl, ?_, rfl, rfl, rfl⟩
  show ("KeyError: sdp" : String) ≠ ""
  decide

/-- C2 counterexample: an offer call with a well-formed body that fails in
the media-engine steps after the peer connection was created and inserted
leaves the connection in the registry — the except-block does not remove it,
refuting the claimed rollback of the session. -/
theorem offer_failure_session_not_removed :
    (offer (some (some "v=0", some "offer")) 7 emptyCfg initialResolverState
        (Except.error ()) 0 (.fail "setRemoteDescription error")
        initialStats).response.status = 500 ∧
    (offer (some (some "v=0", some "offer")) 7 emptyCfg initialResolverState
        (Except.error ()) 0 (.fail "setRemoteDescription error")
        initialStats).stats.failed_connections = 1 ∧
    (offer (some (some "v=0", some "offer")) 7 emptyCfg initialResolverState
        (Except.error ()) 0 (.fail "setRemoteDescription error")
        initialStats).stats.pcs = [7] := by
  refine ⟨rfl, rfl, rfl⟩

/-- C2 amended: when an offer call fails after the session was created and
inserted into the registry, the handler bumps failed_connections, also counts
the attempt in total_connections, and surfaces a 500 error carrying the
exception message — but the created connection stays in the registry; it is
removed only later by the connection-state observer on failed or closed. -/
theorem offer_late_failure_behavior (pcId : Nat) (s t msg : String)
    (cfg : ResolverConfig) (rst : ResolverState) (tw : Except Unit (List IceDict))
    (now : Nat) (st : ServerStats) :
    (offer (some (some s, some t)) pcId cfg rst tw now (.fail msg) st).response.status = 500 ∧
    (offer (some (some s, some t)) pcId cfg rst tw now (.fail msg) st).response.error = some msg ∧
    (offer (some (some s, some t)) pcId cfg rst tw now (.fail msg) st).stats.failed_connections =
      st.failed_connections + 1 ∧
    (offer (some (some s, some t)) pcId cfg rst tw now (.fail msg) st).stats.total_connections =
      st.total_connections + 1 ∧
    (offer (some (some s, some t)) pcId cfg rst tw now (.fail msg) st).stats.pcs =
      pcId :: st.pcs := by
  exact ⟨rfl, rfl, rfl, rfl, rfl⟩

/-- C9: every peer connection the offer handler creates is configured with
ICE transport policy relay — whatever the request, environment, cache state,
resolved server list or engine outcome. -/
theorem offer_pc_policy_relay (body : Option (Option String × Option String))
    (pcId : Nat) (cfg : ResolverConfig) (rst : ResolverState)
    (tw : Except Unit (List IceDict)) (now : Nat) (engine : EngineOutcome)
    (st : ServerStats) (c : RTCConfig)
    (h : (offer body pcId cfg rst tw now engine st).response.pcConfig = some c) :
    c.iceTransportPolicy = "relay" := by
  rcases body with _ | ⟨sd, ty⟩
  · simp [offer] at h
  · rcases sd with _ | s
    · simp [offer] at h
    · rcases ty with _ | t
      · simp [offer] at h
      · cases engine with
        | ok a =>
            have h2 : (⟨convert_to_rtc_ice_servers
                (get_ice_servers cfg rst tw now).servers, "relay"⟩ : RTCConfig) = c := by
              simpa [offer] using h
            rw [← h2]
        | fail m =>
            have h2 : (⟨convert_to_rtc_ice_servers
                (get_ice_servers cfg rst tw now).servers, "relay"⟩ : RTCConfig) = c := by
              simpa [offer] using h
            rw [← h2]

/-- Witness for C9 at a concrete input: no Twilio and no operator relay host,
so ICE resolution fell back to the STUN-only default pair containing no TURN
server, and the created configuration still carries the relay policy. -/
theorem offer_pc_policy_relay_witness :
    (offer (some (some "v=0", some "offer")) 0 emptyCfg initialResolverState
        (Except.error ()) 0 (.ok "answer-sdp") initialStats).response.pcConfig =
      some ⟨convert_to_rtc_ice_servers defaultStunServers, "relay"⟩ ∧
    RTCConfig.iceTransportPolicy
        ⟨convert_to_rtc_ice_servers defaultStunServers, "relay"⟩ = "relay" :=
  ⟨rfl, offer_pc_policy_relay (some (some "v=0", some "offer")) 0 emptyCfg
    initialResolverState (Except.error ()) 0 (.ok "answer-sdp") initialStats
    ⟨convert_to_rtc_ice_servers defaultStunServers, "relay"⟩ rfl⟩

/-! Claims about the connection-state observer. -/

/-- A single connected notification, while the recent window is not yet at
capacity, appends exactly its latency sample. -/
lemma connected_append (st : ServerStats) (pc l : Nat)
    (h : st.connection_times.length ≤ 99) :
    on_connectionstatechange "connected" pc l st =
      { st with connection_times := st.connection_times ++ [l] } := by
  unfold on_connectionstatechange
  rw [if_neg (by decide), if_pos rfl]
  have hlen : ¬ ((st.connection_times ++ [l]).length > 100) := by
    simp only [List.length_append, List.length_cons, List.length_nil]
    omega
  rw [if_neg hlen]

/-- C4 counterexample: starting from fresh statistics, delivering the
connected notification twice appends two latency samples, not one — the
observer has no idempotence guard for repeated connected states. -/
theorem connected_twice_two_samples_cex :
    (on_connectionstatechange "connected" 0 7
        (on_connectionstatechange "connected" 0 5 initialStats)).connection_times.length ≠ 1 := by
  decide

/-- C4 amended: each delivery of the connected notification appends one
latency sample, so delivering it twice appends exactly two samples, in
arrival order (stated below capacity so FIFO eviction does not interfere). -/
theorem connected_twice_appends_two (st : ServerStats) (pc1 pc2 l1 l2 : Nat)
    (h : st.connection_times.length ≤ 98) :
    (on_connectionstatechange "connected" pc2 l2
        (on_connectionstatechange "connected" pc1 l1 st)).connection_times =
      st.connection_times ++ [l1, l2] := by
  rw [connected_append st pc1 l1 (by omega)]
  rw [connected_append _ pc2 l2 (by simp; omega)]
  simp

/-- Witness for C4 amended at a concrete input. -/
theorem connected_twice_appends_two_witness :
    initialStats.connection_times.length ≤ 98 ∧
    (on_connectionstatechange "connected" 1 7
        (on_connectionstatechange "connected" 1 5 initialStats)).connection_times =
      initialStats.connection_times ++ [5, 7] :=
  ⟨by decide, connected_twice_appends_two initialStats 1 1 5 7 (by decide)⟩

/-! Claims about sequences of offer calls. -/

/-- One offer call bumps total_connections exactly when it got past session
creation. -/
lemma stepOffer_total_eq (s : ServerStats × ResolverState) (i : OfferInput) :
    (stepOffer s i).1.total_connections =
      s.1.total_connections + (if earlyFail i then 0 else 1) := by
  obtain ⟨body, pcId, cfg, tw, now, engine⟩ := i
  rcases body with _ | ⟨sd, ty⟩
  · simp [stepOffer, offer, earlyFail, recordFailure]
  · rcases sd with _ | sv
    · simp [stepOffer, offer, earlyFail, recordFailure]
    · rcases ty with _ | tv
      · simp [stepOffer, offer, earlyFail, recordFailure]
      · cases engine <;> simp [stepOffer, offer, earlyFail, recordFailure]

/-- One offer call bumps failed_connections by at most one. -/
lemma stepOffer_failed_le (s : ServerStats × ResolverState) (i : OfferInput) :
    (stepOffer s i).1.failed_connections ≤ s.1.failed_connections + 1 := by
  obtain ⟨body, pcId, cfg, tw, now, engine⟩ := i
  rcases body with _ | ⟨sd, ty⟩
  · simp [stepOffer, offer, earlyFail, recordFailure]
  · rcases sd with _ | sv
    · simp [stepOffer, offer, earlyFail, recordFailure]
    · rcases ty with _ | tv
      · simp [stepOffer, offer, earlyFail, recordFailure]
      · cases engine <;> simp [stepOffer, offer, earlyFail, recordFailure]

/-- Fold invariant for sequences of offer calls: the failed counter stays
within the total counter plus the early failures, for any admissible start. -/
lemma runOffers_aux (tr : List OfferInput) :
    ∀ (s : ServerStats × ResolverState) (k : Nat),
      s.1.failed_connections ≤ s.1.total_connections + k →
      (tr.foldl stepOffer s).1.failed_connections ≤
        (tr.foldl stepOffer s).1.total_connections + (k + countEarlyFails tr) := by
  induction tr with
  | nil =>
      intro s k h
      simpa [countEarlyFails] using h
  | cons i tr ih =>
      intro s k h
      have hstep := stepOffer_total_eq s i
      have hfail := stepOffer_failed_le s i
      rw [List.foldl_cons]
      by_cases he : earlyFail i = true
      · rw [he] at hstep
        have h2 : (stepOffer s i).1.failed_connections ≤
            (stepOffer s i).1.total_connections + (k + 1) := by
          simp at hstep
          omega
        have h3 := ih (stepOffer s i) (k + 1) h2
        have hc : countEarlyFails (i :: tr) = countEarlyFails tr + 1 := by
          simp [countEarlyFails, he]
        rw [hc]
        omega
      · have hef : earlyFail i = false := by
          cases hb : earlyFail i
          · rfl
          · exact absurd hb he
        rw [hef] at hstep
        have h2 : (stepOffer s i).1.failed_connections ≤
            (stepOffer s i).1.total_connections + k := by
          simp at hstep
          omega
        have h3 := ih (stepOffer s i) k h2
        have hc : countEarlyFails (i :: tr) = countEarlyFails tr := by
          simp [countEarlyFails, hef]
        rw [hc]
        omega

/-- C1 counterexample: a single offer call whose body lacks the sdp field
fails before the session is created; it bumps failed_connections without
bumping total_connections, so after it the failed counter strictly exceeds
the total counter, refuting the claimed invariant. -/
theorem offer_failed_exceeds_total :
    ¬ ((runOffers earlyFailTrace).1.failed_connections ≤
        (runOffers earlyFailTrace).1.total_connections) := by
  decide

/-- C1 amended: for every sequence of offer calls from process start, the
failed counter never exceeds the total counter plus the number of calls that
failed before session creation; in particular failed never exceeds total on
sequences whose failures all happen after the session was created. -/
theorem offer_failed_le_total_plus_early (tr : List OfferInput) :
    (runOffers tr).1.failed_connections ≤
      (runOffers tr).1.total_connections + countEarlyFails tr := by
  have h := runOffers_aux tr (initialStats, initialResolverState) 0
    (by simp [initialStats])
  simpa [runOffers] using h

end WebrtcEcho
